import Mathlib

/-!
Shallow embedding of the mail-serialization core of gearnode/postman
(`src/main.go`).

The Go code defines a `Mail` struct (RFC 2822 header fields), a message-id
generator `genMsgID`, and a serializer `(*Mail).String`.  Go strings are
modelled as Lean `String`, byte slices as `List Nat`, `time.Time` values by
their `UnixNano` integer, and the process environment read by `genMsgID`
(clock, pid, secure random source, hostname) as an explicit `Env` record
passed to the embedded functions.  Fallible Go calls are modelled by the
`Option`-valued fields of `Env`; the Go `(value, error)` return convention is
kept as a pair `String × Option GoErr`.
-/

/-- The error surfaced by the embedded code: `genMsgID` returns the error of
`rand.Int(rand.Reader, ...)` when the secure random source fails, and
`Mail.String` passes it through. -/
inductive GoErr where
  | randomnessUnavailable : GoErr
deriving DecidableEq

/-- `type Part struct` from `src/main.go` (named `MailPart` here because
`Part` is taken by the ambient library). -/
structure MailPart where
  ContentType : String
  Content : List Nat
deriving DecidableEq

/-- `type Attachment struct` from `src/main.go`. -/
structure Attachment where
  Filename : String
  ContentDisposition : String
  ContentID : String
  ContentTransfertEncoding : String
  Content : List Nat
deriving DecidableEq

/-- `type Mail struct` from `src/main.go`, field for field.  `time.Time`
fields are embedded as their `UnixNano` value. -/
structure Mail where
  Date : Int
  From : String
  Sender : String
  ReplyTo : String
  To : List String
  Cc : List String
  Bcc : List String
  MessageID : String
  InReplyTo : String
  References : List String
  Subject : String
  Comments : List String
  Keywords : List String
  ResentDate : Int
  ResentFrom : List String
  ResentSender : String
  ResentTo : List String
  ResentCc : List String
  ResentBcc : List String
  ResentReplyTo : String
  ResentMessageID : String
  ReturnPath : String
  Received : String
  Encrypted : String
  DispositionNotificationTo : String
  DispositionNotificationOptions : List String
  AcceptLanguage : String
  Importance : String
  Priority : String
  Sensitivity : String
  Parts : List MailPart
  Attachments : List Attachment
deriving DecidableEq

/-- The process-wide state read by `genMsgID`: `time.Now().UnixNano()`,
`os.Getpid()`, the value drawn by
`rand.Int(rand.Reader, big.NewInt(math.MaxInt64))` (`none` models a read
error of the secure random source; a successful draw lies in `[0, 2^63-1)`),
and `os.Hostname()` (`none` models a resolution error). -/
structure Env where
  timeNanos : Int
  pid : Nat
  randInt : Option Nat
  hostname : Option String

/-- `strings.Join(elems, sep)` from the Go standard library, as used by
`Mail.String`. -/
def stringsJoin : List String → String → String
  | [], _ => ""
  | [s], _ => s
  | s :: rest, sep => s ++ sep ++ stringsJoin (rest) sep

/-- `func genMsgID() (string, error)` from `src/main.go`:

```
t := time.Now().UnixNano()
pid := os.Getpid()
rint, err := rand.Int(rand.Reader, big.NewInt(math.MaxInt64))
if err != nil { return "", err }
host, err := os.Hostname()
if err != nil { host = "localhost.localdomain" }
return fmt.Sprintf("<%d.%d.%d@%s>", t, pid, rint, host), nil
```

`fmt.Sprintf` with `%d` prints the decimal representation, embedded as
`Int.repr` / `Nat.repr`. -/
def genMsgID (env : Env) : String × Option GoErr :=
  let t := env.timeNanos
  let pid := env.pid
  match env.randInt with
  | none => ("", some GoErr.randomnessUnavailable)
  | some rint =>
    let host : String :=
      match env.hostname with
      | none => "localhost.localdomain"
      | some h => h
    ("<" ++ t.repr ++ "." ++ pid.repr ++ "." ++ rint.repr ++ "@" ++ host ++ ">",
     none)

/-- `func (m *Mail) String() (string, error)` from `src/main.go`:

```
var header string
header += fmt.Sprintf("Sender: %s\r\n", m.Sender)
header += fmt.Sprintf("From: %s\r\n", m.From)
if len(m.To) > 0  { header += fmt.Sprintf("To: %s\r\n", strings.Join(m.To, ";")) }
if len(m.Cc) > 0  { header += fmt.Sprintf("Cc: %s\r\n", strings.Join(m.Cc, ";")) }
if len(m.Bcc) > 0 { header += fmt.Sprintf("Bcc: %s\r\n", strings.Join(m.Bcc, ";")) }
if m.ReplyTo != "" { header += fmt.Sprintf("Reply-To: %s\r\n", m.ReplyTo) }
msgid, err := genMsgID()
if err != nil { return "", err }
header += fmt.Sprintf("Message-ID: %s\r\n", msgid)
header += fmt.Sprintf("Subject: %s\r\n", m.Subject)
return header, nil
```
-/
def Mail.string (m : Mail) (env : Env) : String × Option GoErr :=
  let header := "Sender: " ++ m.Sender ++ "\r\n"
  let header := header ++ ("From: " ++ m.From ++ "\r\n")
  let header :=
    if 0 < m.To.length then header ++ ("To: " ++ stringsJoin m.To (";") ++ "\r\n")
    else header
  let header :=
    if 0 < m.Cc.length then header ++ ("Cc: " ++ stringsJoin m.Cc (";") ++ "\r\n")
    else header
  let header :=
    if 0 < m.Bcc.length then header ++ ("Bcc: " ++ stringsJoin m.Bcc (";") ++ "\r\n")
    else header
  let header :=
    if m.ReplyTo ≠ "" then header ++ ("Reply-To: " ++ m.ReplyTo ++ "\r\n")
    else header
  match genMsgID env with
  | (_, some e) => ("", some e)
  | (msgid, none) =>
    let header := header ++ ("Message-ID: " ++ msgid ++ "\r\n")
    let header := header ++ ("Subject: " ++ m.Subject ++ "\r\n")
    (header, none)

/-- State-threading form of `Mail.String`: the receiver is a pointer in Go, so
the method could in principle write to it; its body only reads fields
(`m.Sender`, `m.From`, ...) and contains no assignment to the receiver, so the
final receiver state returned here is the unchanged input. -/
def Mail.stringM (m : Mail) (env : Env) : Mail × (String × Option GoErr) :=
  (m, Mail.string m env)

/-- `leadsWith l p` holds when the list `l` starts with the pattern `p`. -/
def leadsWith : List Char → List Char → Bool
  | _, [] => true
  | [], _ :: _ => false
  | a :: l, b :: p => a == b && leadsWith l p

/-- `containsSeq l p` holds when the pattern `p` occurs contiguously inside
`l`. -/
def containsSeq : List Char → List Char → Bool
  | [], p => leadsWith [] p
  | a :: t, p => leadsWith (a :: t) p || containsSeq t p

/-- Substring test on strings (used to state which header lines occur in a
serialized mail). -/
def strContains (s pat : String) : Bool :=
  containsSeq s.data pat.data

/-- A character that is neither whitespace (space, tab) nor a control
character (byte below 0x20, or DEL 0x7f). -/
def okChar (c : Char) : Prop := 32 < c.toNat ∧ c.toNat ≠ 127

instance (c : Char) : Decidable (okChar c) :=
  inferInstanceAs (Decidable (_ ∧ _))

/-- The msg-id shape asserted by the specification for `genMsgID` output: the
string begins with `<`, ends with `>`, contains exactly one `@` separating a
non-empty left part from a non-empty right part, and contains no internal
whitespace or control characters. -/
def validMsgId (s : String) : Prop :=
  ∃ left right : List Char,
    s.data = '<' :: (left ++ '@' :: right) ++ ['>'] ∧
    left ≠ [] ∧ right ≠ [] ∧
    '@' ∉ left ∧ '@' ∉ right ∧
    (∀ c ∈ left, okChar c) ∧ (∀ c ∈ right, okChar c)

/-- Sanity of the OS-reported hostname: when resolution succeeds it is
non-empty and free of `@`, whitespace and control characters.  (When
resolution fails the code substitutes `localhost.localdomain`, which needs no
hypothesis.) -/
def hostOK (env : Env) : Prop :=
  match env.hostname with
  | none => True
  | some h => h.data ≠ [] ∧ ∀ c ∈ h.data, okChar c ∧ c ≠ '@'

/-- Split a character list into lines at CRLF separators (a final CRLF yields
a trailing empty line, matching the usual reading of CRLF as a line
terminator). -/
def splitCRLF : List Char → List (List Char)
  | [] => [[]]
  | '\r' :: '\n' :: rest => [] :: splitCRLF rest
  | c :: rest =>
    match splitCRLF rest with
    | [] => [[c]]
    | l :: ls => (c :: l) :: ls

/-- The ten decimal digit characters. -/
def digitChars : List Char := ['0', '1', '2', '3', '4', '5', '6', '7', '8', '9']

/-- The hostname value `genMsgID` ends up using: the OS hostname, or the
fixed fallback when resolution fails. -/
def hostOf (env : Env) : String :=
  match env.hostname with
  | none => "localhost.localdomain"
  | some h => h

/-- The left (local) part of a generated message id. -/
def msgIdLeft (t : Int) (p r : Nat) : List Char :=
  (Int.repr t).data ++ '.' :: ((Nat.repr p).data ++ '.' :: (Nat.repr r).data)

/-- A `Mail` value with every field empty/zero, used to build concrete test
mails. -/
def emptyMail : Mail :=
  { Date := 0, From := "", Sender := "", ReplyTo := "", To := [], Cc := [],
    Bcc := [], MessageID := "", InReplyTo := "", References := [],
    Subject := "", Comments := [], Keywords := [], ResentDate := 0,
    ResentFrom := [], ResentSender := "", ResentTo := [], ResentCc := [],
    ResentBcc := [], ResentReplyTo := "", ResentMessageID := "",
    ReturnPath := "", Received := "", Encrypted := "",
    DispositionNotificationTo := "", DispositionNotificationOptions := [],
    AcceptLanguage := "", Importance := "", Priority := "",
    Sensitivity := "", Parts := [], Attachments := [] }

/-- A concrete successful environment: time 0, pid 1, random draw 2, hostname
`h`. -/
def env0 : Env :=
  { timeNanos := 0, pid := 1, randInt := some (2), hostname := some ("h") }

/-- Like `env0` but with a different random draw, modelling the state of the
process at a later second call. -/
def envRand3 : Env := { env0 with randInt := some (3) }

/-- An environment whose OS-reported hostname contains an `@`. -/
def envHostAt : Env :=
  { timeNanos := 0, pid := 1, randInt := some (2), hostname := some ("a@b") }

/-- An environment whose secure random source errors. -/
def envNoRand : Env :=
  { timeNanos := 0, pid := 1, randInt := none, hostname := some ("h") }

/-- An environment whose hostname resolution errors. -/
def envNoHost : Env :=
  { timeNanos := 0, pid := 1, randInt := some (2), hostname := none }

/-- A mail carrying a pre-assigned `MessageID` field. -/
def mFixedID : Mail := { emptyMail with MessageID := "<fixed@id>" }

/-- A mail whose Subject carries a CRLF header-injection payload. -/
def mInject : Mail := { emptyMail with Subject := "x\r\nX-Injected: evil" }

/-- A mail whose Subject contains a non-ASCII character. -/
def mUnicode : Mail := { emptyMail with Subject := "Héllo" }

/-- A mail with one Bcc recipient and nothing else. -/
def mBcc : Mail := { emptyMail with Bcc := ["secret@example.com"] }

/-- A mail whose only populated address list is `ResentTo`. -/
def mResent : Mail := { emptyMail with ResentTo := ["a@x", "b@y"] }

/-- A mail with populated To, Cc and Bcc lists. -/
def mLists : Mail :=
  { emptyMail with To := ["a@x", "b@y"], Cc := ["c@z"], Bcc := ["e@u"] }

/-- A mail whose Subject is 1200 repetitions of `a`. -/
def mLong : Mail := { emptyMail with Subject := ⟨List.replicate 1200 'a'⟩ }

/-! ### Basic lemmas about the substring test -/

theorem leadsWith_append (p y : List Char) : leadsWith (p ++ y) p = true := by
  induction p with
  | nil => simp [leadsWith]
  | cons b p ih => simp [leadsWith, ih]

theorem containsSeq_nil_pat (l : List Char) : containsSeq l [] = true := by
  cases l <;> simp [containsSeq, leadsWith]

theorem containsSeq_append_left (x r p : List Char)
    (h : containsSeq r p = true) : containsSeq (x ++ r) p = true := by
  induction x with
  | nil => simpa using h
  | cons a t ih => simp [containsSeq, ih]

theorem containsSeq_of_middle (x p y : List Char) :
    containsSeq (x ++ (p ++ y)) p = true := by
  apply containsSeq_append_left
  cases p with
  | nil => exact containsSeq_nil_pat y
  | cons c p' =>
    have h := leadsWith_append (c :: p') y
    simp [containsSeq]
    exact Or.inl (by simpa using h)

theorem strContains_of_eq (s pat : String) (x y : List Char)
    (h : s.data = x ++ (pat.data ++ y)) : strContains s pat = true := by
  unfold strContains
  rw [h]
  exact containsSeq_of_middle x pat.data y

/-! ### The decimal representations produced by `fmt.Sprintf` -/

theorem toDigitsCore_mem (fuel : Nat) :
    ∀ (n : Nat) (acc : List Char), (∀ c ∈ acc, c ∈ digitChars) →
      ∀ c ∈ Nat.toDigitsCore 10 fuel n acc, c ∈ digitChars := by
  induction fuel with
  | zero =>
    intro n acc hacc c hc
    exact hacc c (by simpa [Nat.toDigitsCore] using hc)
  | succ f ih =>
    intro n acc hacc c hc
    have hd : Nat.digitChar (n % 10) ∈ digitChars := by
      have h10 : n % 10 < 10 := Nat.mod_lt _ (by decide)
      have : ∀ m, m < 10 → Nat.digitChar m ∈ digitChars := by decide
      exact this _ h10
    by_cases h : n / 10 = 0
    · simp [Nat.toDigitsCore, h] at hc
      rcases hc with hc | hc
      · exact hc ▸ hd
      · exact hacc c hc
    · have hc' : c ∈ Nat.toDigitsCore 10 f (n / 10) (Nat.digitChar (n % 10) :: acc) := by
        simpa [Nat.toDigitsCore, h] using hc
      refine ih (n / 10) _ ?_ c hc'
      intro d hdmem
      rcases List.mem_cons.mp hdmem with rfl | hdmem
      · exact hd
      · exact hacc d hdmem

theorem natRepr_mem (n : Nat) : ∀ c ∈ (Nat.repr n).data, c ∈ digitChars := by
  have : (Nat.repr n).data = Nat.toDigitsCore 10 (n + 1) n [] := rfl
  rw [this]
  exact toDigitsCore_mem (n + 1) n [] (by simp)

theorem toDigitsCore_ne_nil (fuel : Nat) :
    ∀ (n : Nat) (acc : List Char), fuel ≠ 0 ∨ acc ≠ [] →
      Nat.toDigitsCore 10 fuel n acc ≠ [] := by
  induction fuel with
  | zero =>
    intro n acc h
    simpa [Nat.toDigitsCore] using h.resolve_left (by simp)
  | succ f ih =>
    intro n acc _
    by_cases h : n / 10 = 0
    · simp [Nat.toDigitsCore, h]
    · simpa [Nat.toDigitsCore, h] using
        ih (n / 10) (Nat.digitChar (n % 10) :: acc) (Or.inr (by simp))

theorem natRepr_ne_nil (n : Nat) : (Nat.repr n).data ≠ [] :=
  toDigitsCore_ne_nil (n + 1) n [] (Or.inl (Nat.succ_ne_zero n))

theorem intRepr_mem (i : Int) : ∀ c ∈ (Int.repr i).data, c ∈ '-' :: digitChars := by
  cases i with
  | ofNat m =>
    intro c hc
    exact List.mem_cons_of_mem _ (natRepr_mem m c hc)
  | negSucc m =>
    intro c hc
    have : (Int.repr (Int.negSucc m)).data = '-' :: (Nat.repr (m + 1)).data := rfl
    rw [this] at hc
    rcases List.mem_cons.mp hc with rfl | hc
    · exact List.mem_cons_self _ _
    · exact List.mem_cons_of_mem _ (natRepr_mem (m + 1) c hc)

theorem intRepr_ne_nil (i : Int) : (Int.repr i).data ≠ [] := by
  cases i with
  | ofNat m => exact natRepr_ne_nil m
  | negSucc m =>
    have : (Int.repr (Int.negSucc m)).data = '-' :: (Nat.repr (m + 1)).data := rfl
    simp [this]

/-! ### The shape of a successfully generated message id -/

theorem genMsgID_eq (env : Env) (r : Nat) (h : env.randInt = some r) :
    genMsgID env =
      ("<" ++ env.timeNanos.repr ++ "." ++ env.pid.repr ++ "." ++ r.repr ++ "@"
          ++ hostOf env ++ ">", none) := by
  cases henv : env.hostname <;> simp [genMsgID, h, hostOf, henv]

theorem digitOrDash_ok : ∀ c ∈ '-' :: digitChars, okChar c ∧ c ≠ '@' := by decide

theorem dot_ok : okChar '.' ∧ ('.' : Char) ≠ '@' := by decide

theorem hostOf_ok (env : Env) (hh : hostOK env) :
    (hostOf env).data ≠ [] ∧ ∀ c ∈ (hostOf env).data, okChar c ∧ c ≠ '@' := by
  cases henv : env.hostname with
  | none =>
    simp only [hostOf, henv]
    exact ⟨by decide, by decide⟩
  | some h =>
    simp only [hostOK, henv] at hh
    simpa only [hostOf, henv] using hh

theorem msgIdLeft_ne_nil (t : Int) (p r : Nat) : msgIdLeft t p r ≠ [] := by
  simp [msgIdLeft]

theorem msgIdLeft_ok (t : Int) (p r : Nat) :
    ∀ c ∈ msgIdLeft t p r, okChar c ∧ c ≠ '@' := by
  intro c hc
  simp only [msgIdLeft, List.mem_append, List.mem_cons] at hc
  rcases hc with hc | rfl | hc | rfl | hc
  · exact digitOrDash_ok c (intRepr_mem t c hc)
  · exact dot_ok
  · exact digitOrDash_ok c (List.mem_cons_of_mem _ (natRepr_mem p c hc))
  · exact dot_ok
  · exact digitOrDash_ok c (List.mem_cons_of_mem _ (natRepr_mem r c hc))

theorem validMsgId_count (s : String) (h : validMsgId s) : s.data.count '@' = 1 := by
  obtain ⟨left, right, hs, -, -, hl, hr, -, -⟩ := h
  rw [hs]
  have hl0 : left.count '@' = 0 := List.count_eq_zero.mpr hl
  have hr0 : right.count '@' = 0 := List.count_eq_zero.mpr hr
  simp [List.count_append, List.count_cons, hl0, hr0]

/-! ### Claim C3 -/

/-- Claim C3 (amended): every string returned successfully by `genMsgID`
begins with `<`, ends with `>`, contains exactly one `@` separating a
non-empty left part (the dot-joined decimal timestamp, pid and random draw)
from a non-empty right part, with no internal whitespace or control
characters — provided the OS-reported hostname is non-empty and free of `@`,
whitespace and control characters (`hostOK`).  The unamended claim fails for
degenerate hostnames, which the code does not sanitise; see the
counterexample. -/
theorem genMsgID_grammar_amended (env : Env) (r : Nat)
    (h : env.randInt = some r) (hh : hostOK env) :
    (genMsgID env).2 = none ∧ validMsgId (genMsgID env).1 := by
  rw [genMsgID_eq env r h]
  refine ⟨rfl, msgIdLeft env.timeNanos env.pid r, (hostOf env).data, ?_,
    msgIdLeft_ne_nil _ _ _, (hostOf_ok env hh).1,
    fun hm => (msgIdLeft_ok _ _ _ '@' hm).2 rfl,
    fun hm => (((hostOf_ok env hh).2) '@' hm).2 rfl,
    fun c hc => (msgIdLeft_ok _ _ _ c hc).1,
    fun c hc => (((hostOf_ok env hh).2) c hc).1⟩
  have d1 : ("<" : String).data = ['<'] := rfl
  have d2 : ("." : String).data = ['.'] := rfl
  have d3 : ("@" : String).data = ['@'] := rfl
  have d4 : (">" : String).data = ['>'] := rfl
  simp [msgIdLeft, d1, d2, d3, d4, List.append_assoc]

/-- Claim C3 witness: at `env0` (hostname `h`, random draw 2) the generated
id satisfies the msg-id shape. -/
theorem genMsgID_grammar_amended_witness :
    (genMsgID env0).2 = none ∧ validMsgId (genMsgID env0).1 :=
  genMsgID_grammar_amended env0 2 rfl ⟨by decide, by decide⟩

/-- Claim C3 counterexample: with the OS hostname `a@b` (hostnames are not
sanitised by the code), `genMsgID` succeeds yet returns `<0.1.2@a@b>`, which
contains two `@` characters and therefore violates the claimed msg-id
grammar. -/
theorem genMsgID_grammar_counterexample :
    (genMsgID envHostAt).2 = none ∧ ¬ validMsgId (genMsgID envHostAt).1 := by
  refine ⟨rfl, fun h => ?_⟩
  have hc := validMsgId_count _ h
  rw [show (genMsgID envHostAt).1 = "<0.1.2@a@b>" from rfl] at hc
  exact absurd hc (by decide)

/-! ### Claim C4 -/

/-- Claim C4: if the secure random source errors, `genMsgID` fails and
`Mail.String` propagates the failure, returning the empty string together
with the error — no partial header text is returned and no weaker randomness
source is consulted. -/
theorem mail_string_randomness_error (m : Mail) (env : Env)
    (h : env.randInt = none) :
    Mail.string m env = ("", some GoErr.randomnessUnavailable) ∧
    genMsgID env = ("", some GoErr.randomnessUnavailable) := by
  have hg : genMsgID env = ("", some GoErr.randomnessUnavailable) := by
    simp [genMsgID, h]
  exact ⟨by simp [Mail.string, hg], hg⟩

/-- Claim C4 witness: concrete failing-randomness environment. -/
theorem mail_string_randomness_error_witness :
    Mail.string emptyMail envNoRand = ("", some GoErr.randomnessUnavailable) ∧
    genMsgID envNoRand = ("", some GoErr.randomnessUnavailable) :=
  mail_string_randomness_error emptyMail envNoRand rfl

/-! ### Claim C5 -/

/-- Claim C5: if hostname resolution fails, `genMsgID` does not fail for that
reason: it substitutes the placeholder domain `localhost.localdomain` as the
right-hand part of the Message-ID and succeeds (the random source having
succeeded). -/
theorem genMsgID_hostname_fallback (env : Env) (r : Nat)
    (hh : env.hostname = none) (hr : env.randInt = some r) :
    genMsgID env =
      ("<" ++ env.timeNanos.repr ++ "." ++ env.pid.repr ++ "." ++ r.repr ++ "@"
          ++ "localhost.localdomain" ++ ">", none) := by
  simp [genMsgID, hr, hh]

/-- Claim C5 witness: with failed hostname resolution and random draw 2 the
generated id is `<0.1.2@localhost.localdomain>`. -/
theorem genMsgID_hostname_fallback_witness :
    genMsgID envNoHost =
      ("<" ++ (0 : Int).repr ++ "." ++ (1 : Nat).repr ++ "." ++ (2 : Nat).repr ++ "@"
          ++ "localhost.localdomain" ++ ">", none) ∧
    (genMsgID envNoHost).1 = "<0.1.2@localhost.localdomain>" :=
  ⟨genMsgID_hostname_fallback envNoHost 2 rfl rfl, by decide⟩

/-! ### Claims C1, C2, C6, C8 (behaviour of the code at the failing inputs) -/

/-- Claim C1 is violated by the code: serialization is not idempotent in the
identifier.  `Mail.String` calls `genMsgID` on every invocation and never
reads or writes the `MessageID` field: with a pre-assigned
`MessageID = <fixed@id>`, a first call (random draw 2) emits
`Message-ID: <0.1.2@h>` while a second call (random draw 3) emits
`Message-ID: <0.1.3@h>`; the second output does not contain the first
identifier, and neither output contains the stored `<fixed@id>`. -/
theorem mail_string_fresh_message_id :
    strContains (Mail.string mFixedID env0).1 ("Message-ID: <0.1.2@h>\r\n") = true ∧
    strContains (Mail.string mFixedID envRand3).1 ("Message-ID: <0.1.3@h>\r\n") = true ∧
    strContains (Mail.string mFixedID envRand3).1 ("<0.1.2@h>") = false ∧
    strContains (Mail.string mFixedID env0).1 ("<fixed@id>") = false ∧
    strContains (Mail.string mFixedID envRand3).1 ("<fixed@id>") = false :=
  ⟨by decide, by decide, by decide, by decide, by decide⟩

/-- Claim C2 is violated by the code: a Subject containing bare CR/LF bytes
is not rejected with a header-injection error — `Mail.String` succeeds (error
component `none`) and the injected header line `X-Injected: evil` is emitted
verbatim into the output. -/
theorem mail_string_header_injection_passthrough :
    (Mail.string mInject env0).2 = none ∧
    strContains (Mail.string mInject env0).1 ("\r\nX-Injected: evil\r\n") = true :=
  ⟨rfl, by decide⟩

/-- Claim C6 is violated by the code: a Subject containing a byte outside
printable US-ASCII is not wrapped in RFC 2047 encoded-word syntax —
`Mail.String` emits the raw line `Subject: Héllo` and the output contains no
`=?` encoded-word opener at all. -/
theorem mail_string_raw_nonascii_subject :
    (Mail.string mUnicode env0).2 = none ∧
    strContains (Mail.string mUnicode env0).1 ("Subject: Héllo\r\n") = true ∧
    strContains (Mail.string mUnicode env0).1 ("=?") = false :=
  ⟨rfl, by decide, by decide⟩

/-- Claim C8 is violated by the code: when the Bcc list is non-empty,
`Mail.String` emits a `Bcc:` header line into the serialized output,
revealing the blind-carbon-copy recipient in the document headers. -/
theorem mail_string_bcc_emitted :
    (Mail.string mBcc env0).2 = none ∧
    strContains (Mail.string mBcc env0).1 ("Bcc: secret@example.com\r\n") = true :=
  ⟨rfl, by decide⟩

/-! ### Claim C7 -/

theorem splitCRLF_crlf (l : List Char) :
    splitCRLF ('\r' :: '\n' :: l) = [] :: splitCRLF l := rfl

theorem splitCRLF_append_noCR :
    ∀ (x : List Char), (∀ c ∈ x, c ≠ '\r') →
      ∀ l, splitCRLF (x ++ '\r' :: '\n' :: l) = x :: splitCRLF l := by
  intro x
  induction x with
  | nil => intro _ l; exact splitCRLF_crlf l
  | cons a t ih =>
    intro hx l
    have ha : a ≠ '\r' := hx a (List.mem_cons_self a t)
    have ih' := ih (fun c hc => hx c (List.mem_cons_of_mem a hc)) l
    show splitCRLF (a :: (t ++ '\r' :: '\n' :: l)) = (a :: t) :: splitCRLF l
    rw [splitCRLF.eq_def]
    split
    · simp_all
    · simp_all
    · next c rest _ heq =>
      obtain ⟨rfl, rfl⟩ : c = a ∧ rest = t ++ '\r' :: '\n' :: l := by
        injection heq with h1 h2
        exact ⟨h1.symm, h2.symm⟩
      rw [ih']

/-- Claim C7 is violated by the code: no folding is performed, so a Subject
of 1200 characters yields a serialized output with a line of 1209 bytes
(before its CRLF terminator), far beyond the claimed 998-byte limit. -/
theorem mail_string_line_length_overflow :
    (Mail.string mLong env0).2 = none ∧
    ∃ line ∈ splitCRLF (Mail.string mLong env0).1.data, 998 < line.length := by
  have hdata : (Mail.string mLong env0).1.data
      = "Sender: ".data ++ '\r' :: '\n' ::
        ("From: ".data ++ '\r' :: '\n' ::
          ("Message-ID: <0.1.2@h>".data ++ '\r' :: '\n' ::
            (("Subject: ".data ++ List.replicate 1200 'a') ++ '\r' :: '\n' :: []))) := rfl
  refine ⟨rfl, "Subject: ".data ++ List.replicate 1200 'a', ?_, ?_⟩
  · rw [hdata,
      splitCRLF_append_noCR _ (by decide) _,
      splitCRLF_append_noCR _ (by decide) _,
      splitCRLF_append_noCR _ (by decide) _,
      splitCRLF_append_noCR _ ?_ _]
    · exact List.mem_cons_of_mem _ (List.mem_cons_of_mem _
        (List.mem_cons_of_mem _ (List.mem_cons_self _ _)))
    · intro c hc
      rcases List.mem_append.mp hc with hc | hc
      · have hall : ∀ c ∈ ("Subject: " : String).data, c ≠ '\r' := by decide
        exact hall c hc
      · rw [List.eq_of_mem_replicate hc]
        decide
  · have h9 : ("Subject: " : String).data.length = 9 := rfl
    rw [List.length_append, List.length_replicate, h9]
    omega

/-! ### Claim C9 -/

theorem ite_append (c : Prop) [Decidable c] (a x : String) :
    (if c then a ++ x else a) = a ++ (if c then x else "") := by
  by_cases h : c <;> simp [h]

theorem mail_string_decomp (m : Mail) (env : Env) (r : Nat)
    (h : env.randInt = some r) :
    (Mail.string m env).2 = none ∧
    (Mail.string m env).1 =
      "Sender: " ++ m.Sender ++ "\r\n"
      ++ ("From: " ++ m.From ++ "\r\n")
      ++ (if 0 < m.To.length then "To: " ++ stringsJoin m.To (";") ++ "\r\n" else "")
      ++ (if 0 < m.Cc.length then "Cc: " ++ stringsJoin m.Cc (";") ++ "\r\n" else "")
      ++ (if 0 < m.Bcc.length then "Bcc: " ++ stringsJoin m.Bcc (";") ++ "\r\n" else "")
      ++ (if m.ReplyTo ≠ "" then "Reply-To: " ++ m.ReplyTo ++ "\r\n" else "")
      ++ ("Message-ID: " ++ (genMsgID env).1 ++ "\r\n")
      ++ ("Subject: " ++ m.Subject ++ "\r\n") := by
  have hg := genMsgID_eq env r h
  constructor
  · simp [Mail.string, hg]
  · simp only [Mail.string, hg, ite_append]

/-- Claim C9 (amended): for the address-list fields the code serializes —
To, Cc and Bcc — a non-empty list is joined with `;` into a single header
value, e.g. `To: a@x;b@y` terminated by CRLF.  The Resent-* lists named by
the unamended claim are not serialized at all; see the counterexample. -/
theorem mail_string_address_join_amended (m : Mail) (env : Env) (r : Nat)
    (h : env.randInt = some r) :
    (m.To ≠ [] →
      strContains (Mail.string m env).1 ("To: " ++ stringsJoin m.To (";") ++ "\r\n") = true) ∧
    (m.Cc ≠ [] →
      strContains (Mail.string m env).1 ("Cc: " ++ stringsJoin m.Cc (";") ++ "\r\n") = true) ∧
    (m.Bcc ≠ [] →
      strContains (Mail.string m env).1 ("Bcc: " ++ stringsJoin m.Bcc (";") ++ "\r\n") = true) := by
  have hd := (mail_string_decomp m env r h).2
  refine ⟨fun hTo => ?_, fun hCc => ?_, fun hBcc => ?_⟩
  · apply strContains_of_eq _ _
      (("Sender: " ++ m.Sender ++ "\r\n" ++ ("From: " ++ m.From ++ "\r\n")).data)
      (((if 0 < m.Cc.length then "Cc: " ++ stringsJoin m.Cc (";") ++ "\r\n" else "")
        ++ (if 0 < m.Bcc.length then "Bcc: " ++ stringsJoin m.Bcc (";") ++ "\r\n" else "")
        ++ (if m.ReplyTo ≠ "" then "Reply-To: " ++ m.ReplyTo ++ "\r\n" else "")
        ++ ("Message-ID: " ++ (genMsgID env).1 ++ "\r\n")
        ++ ("Subject: " ++ m.Subject ++ "\r\n")).data)
    rw [hd, if_pos (List.length_pos.mpr hTo)]
    simp [List.append_assoc]
  · apply strContains_of_eq _ _
      (("Sender: " ++ m.Sender ++ "\r\n" ++ ("From: " ++ m.From ++ "\r\n")
        ++ (if 0 < m.To.length then "To: " ++ stringsJoin m.To (";") ++ "\r\n" else "")).data)
      (((if 0 < m.Bcc.length then "Bcc: " ++ stringsJoin m.Bcc (";") ++ "\r\n" else "")
        ++ (if m.ReplyTo ≠ "" then "Reply-To: " ++ m.ReplyTo ++ "\r\n" else "")
        ++ ("Message-ID: " ++ (genMsgID env).1 ++ "\r\n")
        ++ ("Subject: " ++ m.Subject ++ "\r\n")).data)
    rw [hd, if_pos (List.length_pos.mpr hCc)]
    simp [List.append_assoc]
  · apply strContains_of_eq _ _
      (("Sender: " ++ m.Sender ++ "\r\n" ++ ("From: " ++ m.From ++ "\r\n")
        ++ (if 0 < m.To.length then "To: " ++ stringsJoin m.To (";") ++ "\r\n" else "")
        ++ (if 0 < m.Cc.length then "Cc: " ++ stringsJoin m.Cc (";") ++ "\r\n" else "")).data)
      (((if m.ReplyTo ≠ "" then "Reply-To: " ++ m.ReplyTo ++ "\r\n" else "")
        ++ ("Message-ID: " ++ (genMsgID env).1 ++ "\r\n")
        ++ ("Subject: " ++ m.Subject ++ "\r\n")).data)
    rw [hd, if_pos (List.length_pos.mpr hBcc)]
    simp [List.append_assoc]

/-- Claim C9 witness: a mail with To `a@x, b@y`, Cc `c@z` and Bcc `e@u`
serializes with the joined header lines present. -/
theorem mail_string_address_join_amended_witness :
    strContains (Mail.string mLists env0).1 ("To: a@x;b@y\r\n") = true ∧
    strContains (Mail.string mLists env0).1 ("Cc: c@z\r\n") = true ∧
    strContains (Mail.string mLists env0).1 ("Bcc: e@u\r\n") = true := by
  have h := mail_string_address_join_amended mLists env0 2 rfl
  exact ⟨h.1 (by decide), h.2.1 (by decide), h.2.2 (by decide)⟩

/-- Claim C9 counterexample: for a mail whose only populated address list is
`ResentTo = [a@x, b@y]`, the serialized output contains neither the joined
value `a@x;b@y` nor any `Resent` header at all, refuting the claim for the
Resent-* lists. -/
theorem mail_string_resent_counterexample :
    (Mail.string mResent env0).2 = none ∧
    strContains (Mail.string mResent env0).1 ("a@x;b@y") = false ∧
    strContains (Mail.string mResent env0).1 ("Resent") = false :=
  ⟨rfl, by decide, by decide⟩

/-! ### Claim C10 -/

/-- Claim C10: serialization never mutates its receiver.  In the
state-threading embedding the receiver returned by `Mail.stringM` is the
unchanged input (the Go method body contains no assignment to the receiver),
and in particular the `MessageID` field is never written back — nor even
read: the output is identical for any stored `MessageID` value. -/
theorem mail_string_no_mutation (m : Mail) (env : Env) :
    (Mail.stringM m env).1 = m ∧
    ∀ s : String, Mail.string { m with MessageID := s } env = Mail.string m env :=
  ⟨rfl, fun s => by simp [Mail.string]⟩
